import Mathlib

/-!
Verification of the esphome UPS components (ups_hid, nut_server) against
their natural-language specification.

Shallow embedding conventions:
* C++ `float` fields that use `NaN` as an "unset" sentinel are modelled as
  `Option ℚ` (`none` = `NaN`); a decoder that stores a value writes `some q`.
  Float comparisons against `NaN` are always false in C++, which matches the
  `Option` pattern matches used below.
* Raw HID report payloads are `List Nat`, one entry per byte (values < 256 in
  all uses; the decoders only mask/shift the bytes, which is faithful for any
  `Nat`).
* Machine integer arithmetic that can wrap (the `uint32_t millis()` clock in
  the rate limiter) is made explicit with `% 2^32`.
-/

namespace UpsHid

/-- Status flag constants from `ups_hid.h` (`enum UpsStatus`). -/
def UPS_STATUS_ONLINE : Nat := 1

def UPS_STATUS_ON_BATTERY : Nat := 2

def UPS_STATUS_LOW_BATTERY : Nat := 4

def UPS_STATUS_REPLACE_BATTERY : Nat := 8

def UPS_STATUS_CHARGING : Nat := 16

def UPS_STATUS_FAULT : Nat := 32

def UPS_STATUS_OVERLOAD : Nat := 64

def UPS_STATUS_CALIBRATING : Nat := 128

def UPS_STATUS_OFF : Nat := 256

/-- Protocol identifiers from `ups_hid.h` (`enum UpsProtocol`). -/
inductive UpsProtocol where
  | PROTOCOL_UNKNOWN
  | PROTOCOL_APC_SMART
  | PROTOCOL_APC_HID
  | PROTOCOL_CYBERPOWER_HID
  | PROTOCOL_GENERIC_HID
  deriving DecidableEq, Repr

/-- The flat `UpsData` record of `ups_hid.h`, extended with the two fields
(`battery_runtime_low`, `battery_status`) that `cyberpower_protocol.cpp`
additionally writes.  `NaN` sentinels are `none`, empty strings are `""`,
the `int16_t` delays use `-1` as the unset sentinel. -/
structure UpsData where
  battery_level : Option ℚ := none
  input_voltage : Option ℚ := none
  output_voltage : Option ℚ := none
  load_percent : Option ℚ := none
  runtime_minutes : Option ℚ := none
  frequency : Option ℚ := none
  status_flags : Nat := 0
  model : String := ""
  manufacturer : String := ""
  serial_number : String := ""
  firmware_version : String := ""
  detected_protocol : UpsProtocol := .PROTOCOL_UNKNOWN
  battery_voltage : Option ℚ := none
  battery_voltage_nominal : Option ℚ := none
  input_voltage_nominal : Option ℚ := none
  input_transfer_low : Option ℚ := none
  input_transfer_high : Option ℚ := none
  ups_realpower_nominal : Option ℚ := none
  ups_delay_shutdown : Int := -1
  ups_delay_start : Int := -1
  ups_beeper_status : String := ""
  input_sensitivity : String := ""
  battery_runtime_low : Option ℚ := none
  battery_status : String := ""
  deriving DecidableEq, Repr

/-- `UpsData::reset` from `ups_hid.h`: every field is assigned its default,
including `detected_protocol = PROTOCOL_UNKNOWN`. -/
def UpsData.reset (_d : UpsData) : UpsData := {}

/-- `UpsData::is_valid` from `ups_hid.h`. -/
def UpsData.is_valid (d : UpsData) : Bool :=
  d.battery_level.isSome || d.input_voltage.isSome ||
    d.output_voltage.isSome || d.status_flags != 0

namespace ApcHidProtocol

/-- `ApcHidProtocol::parse_power_summary_report` (report 0x0C) from
`apc_hid_protocol.cpp`: byte 1 is the battery percentage; bytes 2..3
(little endian) are the runtime in minutes, stored only when
`0 < raw < 65535`. -/
def parse_power_summary_report (report : List Nat) (data : UpsData) : UpsData :=
  if report.length < 2 then data
  else
    let d1 := { data with battery_level := some (report.getD 1 0 : ℚ) }
    if 4 ≤ report.length then
      let runtime_raw := report.getD 2 0 + 256 * report.getD 3 0
      if 0 < runtime_raw ∧ runtime_raw < 65535 then
        { d1 with runtime_minutes := some (runtime_raw : ℚ) }
      else d1
    else d1

/-- The status-flag construction block of
`ApcHidProtocol::parse_present_status_report` (`apc_hid_protocol.cpp`): the
if/else-if ONLINE/ON_BATTERY mapping followed by the additive bits. -/
def build_status_flags (charging discharging ac_present battery_present
    below_capacity shutdown_imminent need_replacement overload : Bool) : Nat :=
  let base :=
    if ac_present && !discharging then UPS_STATUS_ONLINE
    else if discharging || !ac_present then UPS_STATUS_ON_BATTERY
    else 0
  let s1 := if charging then base ||| UPS_STATUS_CHARGING else base
  let s2 :=
    if below_capacity || shutdown_imminent then s1 ||| UPS_STATUS_LOW_BATTERY
    else s1
  let s3 :=
    if need_replacement || !battery_present then s2 ||| UPS_STATUS_FAULT
    else s2
  if overload then s3 ||| UPS_STATUS_OVERLOAD else s3

/-- `ApcHidProtocol::parse_present_status_report` (report 0x16) from
`apc_hid_protocol.cpp`: bit field decode of byte 1 (and the Overload bit in
byte 2 when present), then the status mapping of `build_status_flags`. -/
def parse_present_status_report (report : List Nat) (data : UpsData) : UpsData :=
  if report.length < 2 then data
  else
    let packed := report.getD 1 0
    let overload :=
      if 3 ≤ report.length then (report.getD 2 0) &&& 0x01 != 0 else false
    let flags :=
      build_status_flags (packed &&& 0x01 != 0) (packed &&& 0x02 != 0)
        (packed &&& 0x04 != 0) (packed &&& 0x08 != 0) (packed &&& 0x10 != 0)
        (packed &&& 0x20 != 0) (packed &&& 0x80 != 0) overload
    { data with status_flags := flags }

end ApcHidProtocol

namespace CyberPowerProtocol

/-- Per-session decoder state of `CyberPowerProtocol`
(`battery_voltage_scale_`, `battery_scale_checked_`), as set by
`initialize()` in `cyberpower_protocol.cpp`. -/
structure CpState where
  battery_voltage_scale_ : ℚ := 1
  battery_scale_checked_ : Bool := false
  deriving DecidableEq, Repr

/-- `CyberPowerProtocol::check_battery_voltage_scaling` from
`cyberpower_protocol.cpp`: decided at most once per session
(`battery_scale_checked_` guard); sets the 2/3 factor when the measured
voltage exceeds 1.4 times the nominal voltage. -/
def check_battery_voltage_scaling (s : CpState)
    (battery_voltage nominal_voltage : ℚ) : CpState :=
  if s.battery_scale_checked_ then s
  else if battery_voltage > nominal_voltage * (14/10) then
    { battery_voltage_scale_ := 2/3, battery_scale_checked_ := true }
  else
    { battery_voltage_scale_ := 1, battery_scale_checked_ := true }

/-- `CyberPowerProtocol::parse_battery_voltage_report` (report 0x0A) from
`cyberpower_protocol.cpp`: byte 1 divided by 10.  Note: the source stores
the scaled-by-0.1 raw value directly; it does not read
`battery_voltage_scale_`. -/
def parse_battery_voltage_report (report : List Nat) (data : UpsData) : UpsData :=
  if report.length < 2 then data
  else { data with battery_voltage := some ((report.getD 1 0 : ℚ) / 10) }

/-- `CyberPowerProtocol::parse_battery_voltage_nominal_report` (report 0x09)
from `cyberpower_protocol.cpp`: byte 1 divided by 10. -/
def parse_battery_voltage_nominal_report (report : List Nat) (data : UpsData) :
    UpsData :=
  if report.length < 2 then data
  else { data with battery_voltage_nominal := some ((report.getD 1 0 : ℚ) / 10) }

/-- The status-flag construction block of
`CyberPowerProtocol::parse_present_status_report` (`cyberpower_protocol.cpp`).
`ONLINE` is set whenever `ac_present` holds; `ON_BATTERY` is set whenever
`!ac_present || discharging` holds (the two conditions are independent `if`
statements in the source, not an if/else-if pair). -/
def build_status_flags (ac_present charging discharging low_battery
    time_limit_expired : Bool) : Nat :=
  let s0 := if ac_present then UPS_STATUS_ONLINE else 0
  let s1 :=
    if !ac_present || discharging then s0 ||| UPS_STATUS_ON_BATTERY else s0
  let s2 := if charging then s1 ||| UPS_STATUS_CHARGING else s1
  if low_battery || time_limit_expired then s2 ||| UPS_STATUS_LOW_BATTERY
  else s2

/-- The `battery_status` text derivation of the same function. -/
def derive_battery_status (ac_present charging discharging fully_charged :
    Bool) : String :=
  if charging then "charging"
  else if discharging || !ac_present then "discharging"
  else if fully_charged then "fully charged"
  else "normal"

/-- `CyberPowerProtocol::parse_present_status_report` (report 0x0B) from
`cyberpower_protocol.cpp`: bit decode of byte 1, flag build of
`build_status_flags`, battery-status text of `derive_battery_status`. -/
def parse_present_status_report (report : List Nat) (data : UpsData) : UpsData :=
  if report.length < 2 then data
  else
    let status_byte := report.getD 1 0
    let ac_present := status_byte &&& 0x01 != 0
    let charging := status_byte &&& 0x02 != 0
    let discharging := status_byte &&& 0x04 != 0
    let low_battery := status_byte &&& 0x08 != 0
    let fully_charged := status_byte &&& 0x10 != 0
    let time_limit_expired := status_byte &&& 0x20 != 0
    { data with
        status_flags :=
          build_status_flags ac_present charging discharging low_battery
            time_limit_expired,
        battery_status :=
          derive_battery_status ac_present charging discharging fully_charged }

/-- The battery-voltage step of `CyberPowerProtocol::read_data` in
`cyberpower_protocol.cpp`: the report is handed to
`parse_battery_voltage_report` and nothing else happens.  In the source,
`read_data` has no call to `check_battery_voltage_scaling` and no use of
`battery_voltage_scale_`, so the session state is left untouched. -/
def read_data_battery_voltage_step (s : CpState) (report : List Nat)
    (data : UpsData) : CpState × UpsData :=
  (s, parse_battery_voltage_report report data)

end CyberPowerProtocol

/-- Battery component of the composite data model.  Modelled from the spec:
`data_battery.h` is absent from src; fields and sentinels follow spec §3.1
(`NaN` reals modelled as `none`, text unset as `""`). -/
structure BatteryData where
  level : Option ℚ := none
  voltage : Option ℚ := none
  voltage_nominal : Option ℚ := none
  runtime_minutes : Option ℚ := none
  runtime_low_minutes : Option ℚ := none
  status : String := ""
  battery_kind : String := ""
  mfr_date : String := ""
  charge_warning : Option ℚ := none
  charge_low : Option ℚ := none
  deriving DecidableEq, Repr

/-- `BatteryData::reset`.  Modelled from the spec: all fields return to the
unset sentinels. -/
def BatteryData.reset (_b : BatteryData) : BatteryData := {}

/-- Power component of the composite data model.  Modelled from the spec:
`data_power.h` is absent from src; fields follow spec §3.2. -/
structure PowerData where
  status : String := ""
  input_voltage : Option ℚ := none
  input_voltage_nominal : Option ℚ := none
  output_voltage : Option ℚ := none
  output_voltage_nominal : Option ℚ := none
  load_percent : Option ℚ := none
  frequency : Option ℚ := none
  input_transfer_low : Option ℚ := none
  input_transfer_high : Option ℚ := none
  realpower_nominal : Option ℚ := none
  apparent_power_nominal : Option ℚ := none
  deriving DecidableEq, Repr

/-- `PowerData::reset`.  Modelled from the spec: all fields return to the
unset sentinels. -/
def PowerData.reset (_p : PowerData) : PowerData := {}

/-- Device-information component of the composite data model.  Modelled
from the spec: `data_device.h` is absent from src; fields follow spec §3.4. -/
structure DeviceInfo where
  manufacturer : String := ""
  model : String := ""
  serial_number : String := ""
  firmware_version : String := ""
  firmware_aux : String := ""
  mfr_date : String := ""
  detected_protocol : UpsProtocol := .PROTOCOL_UNKNOWN
  deriving DecidableEq, Repr

/-- `DeviceInfo::reset`.  Modelled from the spec: a fresh decode cycle MUST
preserve the previously detected protocol identifier
(`device.detected_protocol`) even after a reset, because `read()` is
implemented by reset-then-fill; the identity strings return to `""`. -/
def DeviceInfo.reset (d : DeviceInfo) : DeviceInfo :=
  { detected_protocol := d.detected_protocol }

/-- Test states from `test_status.h` (`enum TestState`). -/
inductive TestState where
  | TEST_STATE_IDLE
  | TEST_STATE_BATTERY_QUICK_RUNNING
  | TEST_STATE_BATTERY_DEEP_RUNNING
  | TEST_STATE_UPS_TEST_RUNNING
  | TEST_STATE_PANEL_TEST_RUNNING
  | TEST_STATE_COMPLETED
  | TEST_STATE_FAILED
  | TEST_STATE_ABORTED
  deriving DecidableEq, Repr

/-- Test results from `test_status.h` (`enum TestResult`). -/
inductive TestResult where
  | TEST_RESULT_UNKNOWN
  | TEST_RESULT_NO_TEST
  | TEST_RESULT_PASSED
  | TEST_RESULT_FAILED
  | TEST_RESULT_IN_PROGRESS
  | TEST_RESULT_NOT_SUPPORTED
  | TEST_RESULT_ABORTED
  | TEST_RESULT_BATTERY_GOOD
  | TEST_RESULT_BATTERY_BAD
  | TEST_RESULT_BATTERY_REPLACE
  deriving DecidableEq, Repr

/-- Test types from `test_status.h` (`enum TestType`). -/
inductive TestType where
  | TEST_TYPE_NONE
  | TEST_TYPE_BATTERY_QUICK
  | TEST_TYPE_BATTERY_DEEP
  | TEST_TYPE_UPS_SELF_TEST
  | TEST_TYPE_PANEL_TEST
  deriving DecidableEq, Repr

/-- `TestStatus` from `test_status.h` (field part). -/
structure TestStatus where
  ups_test_result : String := ""
  last_test_result : String := ""
  timer_reboot : Int := -1
  timer_shutdown : Int := -1
  timer_start : Int := -1
  current_test_state : TestState := .TEST_STATE_IDLE
  test_start_time : Nat := 0
  test_duration_ms : Nat := 0
  last_battery_test_result : TestResult := .TEST_RESULT_UNKNOWN
  last_ups_test_result : TestResult := .TEST_RESULT_UNKNOWN
  current_test_type : TestType := .TEST_TYPE_NONE
  deriving DecidableEq, Repr

/-- `TestStatus::reset` from `test_status.h`: assignment from a
default-constructed value. -/
def TestStatus.reset (_t : TestStatus) : TestStatus := {}

/-- Beeper states from `data_config.h` (`enum BeeperState`). -/
inductive BeeperState where
  | BEEPER_UNKNOWN
  | BEEPER_ENABLED
  | BEEPER_DISABLED
  | BEEPER_MUTED
  deriving DecidableEq, Repr

/-- Sensitivity levels from `data_config.h` (`enum SensitivityLevel`). -/
inductive SensitivityLevel where
  | SENSITIVITY_UNKNOWN
  | SENSITIVITY_LOW
  | SENSITIVITY_MEDIUM
  | SENSITIVITY_HIGH
  | SENSITIVITY_AUTO
  deriving DecidableEq, Repr

/-- `ConfigData` from `data_config.h` (field part). -/
structure ConfigData where
  delay_shutdown : Int := -1
  delay_start : Int := -1
  delay_reboot : Int := -1
  beeper_status : String := ""
  beeper_state : BeeperState := .BEEPER_UNKNOWN
  input_sensitivity : String := ""
  sensitivity_level : SensitivityLevel := .SENSITIVITY_UNKNOWN
  low_battery_threshold : Option ℚ := none
  critical_battery_threshold : Option ℚ := none
  high_temperature_threshold : Option ℚ := none
  auto_restart_enabled : Bool := false
  cold_start_enabled : Bool := false
  audible_alarm_enabled : Bool := true
  protocol_timeout_ms : Nat := 15000
  retry_count : Nat := 3
  auto_detect_protocol : Bool := true
  deriving DecidableEq, Repr

/-- `ConfigData::reset` from `data_config.h`: assignment from a
default-constructed value. -/
def ConfigData.reset (_c : ConfigData) : ConfigData := {}

/-- `UpsCompositeData` from `data_composite.h`. -/
structure UpsCompositeData where
  battery : BatteryData := {}
  power : PowerData := {}
  device : DeviceInfo := {}
  test : TestStatus := {}
  config : ConfigData := {}
  deriving DecidableEq, Repr

/-- `UpsCompositeData::reset` from `data_composite.h`: delegates to the
component resets. -/
def UpsCompositeData.reset (u : UpsCompositeData) : UpsCompositeData :=
  { battery := u.battery.reset, power := u.power.reset,
    device := u.device.reset, test := u.test.reset,
    config := u.config.reset }

/-- `UpsHidComponent::ErrorRateLimit` from `ups_hid.h`: all three fields are
`uint32_t` initialised to 0. -/
structure ErrorRateLimit where
  last_error_time : Nat := 0
  error_count : Nat := 0
  suppressed_count : Nat := 0
  deriving DecidableEq, Repr

/-- `ErrorRateLimit::RATE_LIMIT_MS` from `ups_hid.h`. -/
def RATE_LIMIT_MS : Nat := 5000

/-- `ErrorRateLimit::MAX_BURST` from `ups_hid.h`. -/
def MAX_BURST : Nat := 3

/-- Wrap-around subtraction of two `uint32_t` values (`now - last` in
`should_log_error`). -/
def sub32 (a b : Nat) : Nat := (a + 2 ^ 32 - b % 2 ^ 32) % 2 ^ 32

/-- `UpsHidComponent::should_log_error` from `ups_hid.cpp`.  Returns
(admitted?, size of the "suppressed N similar messages" summary emitted on
this call (0 when no summary is logged), new limiter state).  The source
first resets the window when more than `RATE_LIMIT_MS` elapsed since
`last_error_time` (logging the summary if anything was suppressed), then
increments `error_count` and admits iff it is still within `MAX_BURST`. -/
def should_log_error (limiter : ErrorRateLimit) (now : Nat) :
    Bool × Nat × ErrorRateLimit :=
  let window_expired := RATE_LIMIT_MS < sub32 now limiter.last_error_time
  let summary :=
    if window_expired ∧ 0 < limiter.suppressed_count then
      limiter.suppressed_count
    else 0
  let l1 :=
    if window_expired then
      { last_error_time := now, error_count := 0, suppressed_count := 0 }
    else limiter
  let l2 := { l1 with error_count := l1.error_count + 1 }
  if l2.error_count ≤ MAX_BURST then (true, summary, l2)
  else (false, summary, { l2 with suppressed_count := l2.suppressed_count + 1 })

/-- Run `should_log_error` over a list of call timestamps, collecting the
admitted/suppressed verdicts. -/
def run_rate_limiter (times : List Nat) : List Bool :=
  (times.foldl
    (fun (acc : ErrorRateLimit × List Bool) now =>
      let r := should_log_error acc.1 now
      (r.2.2, acc.2 ++ [r.1]))
    ({}, [])).2

end UpsHid

namespace NutServer

open UpsHid

/-- Client connection states.  Modelled from the spec: the `ClientState`
enum lives in the absent `nut_server.h`
(`DISCONNECTED, CONNECTED, AUTHENTICATED`). -/
inductive ClientState where
  | DISCONNECTED
  | CONNECTED
  | AUTHENTICATED
  deriving DecidableEq, Repr

/-- Per-client slot state.  Modelled from the spec: the `NutClient` struct
lives in the absent `nut_server.h`; the spec lists socket, state, remote IP,
times, `login_attempts` and the scratch `temp_username`/`temp_password`.
The socket is modelled as a Bool (open/closed); times and the remote IP are
irrelevant to the claims and omitted from equality-sensitive reasoning but
kept for the LIST CLIENTS handler via explicit rows. -/
structure NutClient where
  socket_open : Bool := false
  state : ClientState := .DISCONNECTED
  username : String := ""
  temp_username : String := ""
  temp_password : String := ""
  login_attempts : Nat := 0
  deriving DecidableEq, Repr

/-- `NutClient::reset`.  Modelled from the spec: all fields return to their
defaults and the state becomes `DISCONNECTED`. -/
def NutClient.reset (_c : NutClient) : NutClient := {}

/-- `NutClient::is_authenticated`.  Modelled from the spec. -/
def NutClient.is_authenticated (c : NutClient) : Bool :=
  c.state = ClientState.AUTHENTICATED

/-- `MAX_LOGIN_ATTEMPTS`.  Modelled from the spec: `MAX_LOGIN_ATTEMPTS = 3`
(absent `nut_server.h`). -/
def MAX_LOGIN_ATTEMPTS : Nat := 3

/-- `NutServerComponent::disconnect_client` from `nut_server.cpp`: close the
socket and reset the slot. -/
def disconnect_client (_c : NutClient) : NutClient := {}

/-- Server configuration (`username_`, `password_`, `ups_name_`,
`ups_description_` and the two version strings from the absent
`nut_server.h`; the claims do not depend on the version values, so they are
carried as fields instead of invented constants). -/
structure ServerCfg where
  username_ : String := ""
  password_ : String := ""
  ups_name_ : String := ""
  ups_description_ : String := ""
  nut_version : String := ""
  upsd_version : String := ""
  deriving DecidableEq, Repr

/-- Snapshot of the UPS HID component as consumed by the NUT server:
`hid_present` is `ups_hid_ != nullptr`, `connected` is
`ups_hid_->is_connected()` (field `connected_` of `ups_hid.h`), the rest
mirrors the cached `UpsData` fields and getters the server reads.
The numeric getters (`get_battery_level` etc.) live in the absent
`nut_server.h`/composite headers; modelled from the spec: they return the
cached fields, `NaN` (here `none`) when unset. -/
structure UpsView where
  hid_present : Bool := true
  connected : Bool := false
  manufacturer : String := ""
  model : String := ""
  serial_number : String := ""
  firmware_version : String := ""
  battery_level : Option ℚ := none
  battery_voltage : Option ℚ := none
  battery_voltage_nominal : Option ℚ := none
  runtime_minutes : Option ℚ := none
  input_voltage : Option ℚ := none
  input_voltage_nominal : Option ℚ := none
  frequency : Option ℚ := none
  input_transfer_low : Option ℚ := none
  input_transfer_high : Option ℚ := none
  output_voltage : Option ℚ := none
  output_voltage_nominal : Option ℚ := none
  load_percent : Option ℚ := none
  realpower_nominal : Option ℚ := none
  apparent_power_nominal : Option ℚ := none
  status_flags : Nat := 0
  deriving DecidableEq, Repr

/-- `NutServerComponent::has_ups_data` from `nut_server.cpp`:
`ups_hid_ && ups_hid_->is_connected()`. -/
def has_ups_data (v : UpsView) : Bool := v.hid_present && v.connected

/-- `UpsHidComponent::is_online`.  Modelled from the spec: status flag
membership test on the cached `status_flags`. -/
def is_online (v : UpsView) : Bool := v.status_flags &&& UPS_STATUS_ONLINE != 0

/-- `UpsHidComponent::is_on_battery`.  Modelled from the spec. -/
def is_on_battery (v : UpsView) : Bool :=
  v.status_flags &&& UPS_STATUS_ON_BATTERY != 0

/-- `UpsHidComponent::is_low_battery`.  Modelled from the spec. -/
def is_low_battery (v : UpsView) : Bool :=
  v.status_flags &&& UPS_STATUS_LOW_BATTERY != 0

/-- `UpsHidComponent::is_charging`.  Modelled from the spec. -/
def is_charging (v : UpsView) : Bool :=
  v.status_flags &&& UPS_STATUS_CHARGING != 0

/-- `UpsHidComponent::has_fault`.  Modelled from the spec. -/
def has_fault (v : UpsView) : Bool := v.status_flags &&& UPS_STATUS_FAULT != 0

/-- `NutServerComponent::get_ups_status` from `nut_server.cpp`: "OL"/"OB"
first, then "LB", "CHRG", "ALARM", space separated; empty when the
component is absent or disconnected. -/
def get_ups_status (v : UpsView) : String :=
  if !(v.hid_present && v.connected) then ""
  else
    let s0 := if is_online v then "OL" else if is_on_battery v then "OB" else ""
    let s1 :=
      if is_low_battery v then (if s0 != "" then s0 ++ " " else s0) ++ "LB"
      else s0
    let s2 :=
      if is_charging v then (if s1 != "" then s1 ++ " " else s1) ++ "CHRG"
      else s1
    if has_fault v then (if s2 != "" then s2 ++ " " else s2) ++ "ALARM"
    else s2

/-- `NutServerComponent::get_ups_manufacturer` from `nut_server.cpp`. -/
def get_ups_manufacturer (v : UpsView) : String :=
  if v.hid_present && (v.manufacturer != "") then v.manufacturer else "Unknown"

/-- `NutServerComponent::get_ups_model` from `nut_server.cpp`. -/
def get_ups_model (v : UpsView) : String :=
  if v.hid_present && (v.model != "") then v.model else "Unknown UPS"

/-- C-style cast of a real value to `int`: truncation toward zero
(`static_cast<int>` in `get_ups_var`). -/
def c_trunc (q : ℚ) : Int := if q < 0 then -Int.floor (-q) else Int.floor q

/-- `NutServerComponent::format_nut_value` from `nut_server.cpp` renders a
numeric value with one decimal place (`%.1f`).  The model rounds half away
from zero; no claim below depends on the tie-breaking of the float
rendering. -/
def format_nut_value (q : ℚ) : String :=
  let n := c_trunc (q * 10 + (if q < 0 then -(1/2) else (1/2)))
  toString (n / 10) ++ "." ++ toString (n.natAbs % 10)

/-- `NutServerComponent::get_ups_name` from `nut_server.cpp`. -/
def get_ups_name (cfg : ServerCfg) : String :=
  if cfg.ups_name_ = "" then "ups" else cfg.ups_name_

/-- `NutServerComponent::get_ups_description` from `nut_server.cpp`. -/
def get_ups_description (v : UpsView) : String :=
  if !has_ups_data v then "ESPHome UPS"
  else
    let manufacturer := get_ups_manufacturer v
    let model := get_ups_model v
    if manufacturer != "" && model != "" then manufacturer ++ " " ++ model
    else if manufacturer = "" then "ESPHome UPS"
    else manufacturer

/-- `NutServerComponent::authenticate` from `nut_server.cpp`: no password
configured means no authentication required. -/
def authenticate (cfg : ServerCfg) (username password : String) : Bool :=
  if cfg.password_ = "" then true
  else username = cfg.username_ && password = cfg.password_

/-- `NutServerComponent::get_ups_var` from `nut_server.cpp`, translated as
the same ordered chain of guarded returns (a guard that fails falls through
and the chain ends in `""`). -/
def get_ups_var (v : UpsView) (var_name : String) : String :=
  if !has_ups_data v then ""
  else if var_name = "ups.mfr" then get_ups_manufacturer v
  else if var_name = "ups.model" then get_ups_model v
  else if var_name = "ups.serial" && v.hid_present && (v.serial_number != "")
    then v.serial_number
  else if var_name = "ups.firmware" && v.hid_present && (v.firmware_version != "")
    then v.firmware_version
  else if var_name = "battery.charge" && v.hid_present &&
      (match v.battery_level with | some l => decide (0 ≤ l) | none => false)
    then toString (c_trunc (v.battery_level.getD 0))
  else if var_name = "battery.voltage" && v.hid_present && v.battery_voltage.isSome
    then format_nut_value (v.battery_voltage.getD 0)
  else if var_name = "battery.voltage.nominal" && v.hid_present &&
      v.battery_voltage_nominal.isSome
    then format_nut_value (v.battery_voltage_nominal.getD 0)
  else if var_name = "battery.runtime" && v.hid_present &&
      (match v.runtime_minutes with | some r => decide (0 < r) | none => false)
    then toString (c_trunc (v.runtime_minutes.getD 0 * 60))
  else if var_name = "input.voltage" && v.hid_present &&
      (match v.input_voltage with | some x => decide (0 < x) | none => false)
    then format_nut_value (v.input_voltage.getD 0)
  else if var_name = "input.voltage.nominal" && v.hid_present &&
      v.input_voltage_nominal.isSome
    then format_nut_value (v.input_voltage_nominal.getD 0)
  else if var_name = "input.frequency" && v.hid_present && v.frequency.isSome
    then format_nut_value (v.frequency.getD 0)
  else if var_name = "input.transfer.low" && v.hid_present &&
      v.input_transfer_low.isSome
    then format_nut_value (v.input_transfer_low.getD 0)
  else if var_name = "input.transfer.high" && v.hid_present &&
      v.input_transfer_high.isSome
    then format_nut_value (v.input_transfer_high.getD 0)
  else if var_name = "output.voltage" && v.hid_present &&
      (match v.output_voltage with | some x => decide (0 < x) | none => false)
    then format_nut_value (v.output_voltage.getD 0)
  else if var_name = "output.voltage.nominal" && v.hid_present &&
      v.output_voltage_nominal.isSome
    then format_nut_value (v.output_voltage_nominal.getD 0)
  else if var_name = "ups.load" && v.hid_present &&
      (match v.load_percent with | some l => decide (0 ≤ l) | none => false)
    then toString (c_trunc (v.load_percent.getD 0))
  else if var_name = "ups.realpower.nominal" && v.hid_present &&
      v.realpower_nominal.isSome
    then toString (c_trunc (v.realpower_nominal.getD 0))
  else if var_name = "ups.power.nominal" && v.hid_present &&
      v.apparent_power_nominal.isSome
    then toString (c_trunc (v.apparent_power_nominal.getD 0))
  else if var_name = "ups.status" then get_ups_status v
  else ""

/-- ASCII uppercasing of the command token
(`std::transform(..., ::toupper)` in `process_command`). -/
def to_upper (s : String) : String := String.mk (s.toList.map Char.toUpper)

/-- Split a line at the first space character
(`command.find(' ')` / `substr` in `process_command`): the pair is
(command token, remainder after the space; empty when there is no space). -/
def split_first (s : String) : String × String :=
  let cs := s.toList
  let cmd := cs.takeWhile (fun c => c ≠ ' ')
  let rest := cs.dropWhile (fun c => c ≠ ' ')
  (String.mk cmd, String.mk (rest.drop 1))

/-- Fuel-indexed worker for `split_args`: skip whitespace, read a token; a
token starting with a double quote either strips a trailing quote or, as in
the `getline(iss, rest, quote)` branch of the source, extends through the
stream up to the next double quote (consuming it).  A lone-quote token hits
`quoted.back()` on an empty string in the source (undefined behaviour); the
model takes the `getline` branch for it. -/
def split_args_aux : Nat → List Char → List String
  | 0, _ => []
  | fuel + 1, cs =>
    let cs1 := cs.dropWhile (fun c => c.isWhitespace)
    if cs1.isEmpty then []
    else
      let tok := cs1.takeWhile (fun c => !c.isWhitespace)
      let rest := cs1.dropWhile (fun c => !c.isWhitespace)
      if tok.headD ' ' = '\"' then
        let q := tok.tail
        if q ≠ [] ∧ q.getLast? = some '\"' then
          String.mk q.dropLast :: split_args_aux fuel rest
        else
          let more := rest.takeWhile (fun c => c ≠ '\"')
          let rest2 := (rest.dropWhile (fun c => c ≠ '\"')).drop 1
          String.mk (q ++ more) :: split_args_aux fuel rest2
      else String.mk tok :: split_args_aux fuel rest

/-- `NutServerComponent::split_args` from `nut_server.cpp`
(`istringstream` whitespace tokenisation plus quote handling). -/
def split_args (s : String) : List String :=
  split_args_aux s.toList.length s.toList

/-- `NutServerComponent::send_error` payload. -/
def err (e : String) : String := "ERR " ++ e ++ "\n"

/-- `NutServerComponent::handle_help` from `nut_server.cpp`. -/
def handle_help (c : NutClient) : NutClient × List String :=
  (c, ["Commands: HELP VERSION NETVER STARTTLS USERNAME PASSWORD LOGIN LOGOUT LIST GET SET INSTCMD FSD UPSDVER\n"])

/-- `NutServerComponent::handle_version` from `nut_server.cpp`. -/
def handle_version (cfg : ServerCfg) (c : NutClient) : NutClient × List String :=
  (c, ["VERSION \"" ++ cfg.nut_version ++ "\"\n"])

/-- `NutServerComponent::handle_netver` from `nut_server.cpp`. -/
def handle_netver (c : NutClient) : NutClient × List String := (c, ["1.3\n"])

/-- `NutServerComponent::handle_upsdver` from `nut_server.cpp`. -/
def handle_upsdver (cfg : ServerCfg) (c : NutClient) : NutClient × List String :=
  (c, [cfg.upsd_version ++ "\n"])

/-- `NutServerComponent::handle_starttls` from `nut_server.cpp`. -/
def handle_starttls (c : NutClient) : NutClient × List String :=
  (c, [err "FEATURE-NOT-SUPPORTED"])

/-- `NutServerComponent::handle_username` from `nut_server.cpp`. -/
def handle_username (c : NutClient) (args : String) : NutClient × List String :=
  if args = "" then (c, [err "INVALID-ARGUMENT"])
  else ({ c with temp_username := args }, ["OK\n"])

/-- `NutServerComponent::handle_password` from `nut_server.cpp`: stores the
password, attempts authentication against the stored scratch username, and
clears the scratch credentials afterwards. -/
def handle_password (cfg : ServerCfg) (c : NutClient) (args : String) :
    NutClient × List String :=
  if args = "" then (c, [err "INVALID-ARGUMENT"])
  else
    let c1 := { c with temp_password := args }
    if authenticate cfg c1.temp_username c1.temp_password then
      ({ c1 with state := .AUTHENTICATED, username := c1.temp_username,
                 login_attempts := 0, temp_username := "", temp_password := "" },
       ["OK\n"])
    else
      let c2 := { c1 with login_attempts := c1.login_attempts + 1 }
      if MAX_LOGIN_ATTEMPTS ≤ c2.login_attempts then (disconnect_client c2, [])
      else ({ c2 with temp_username := "", temp_password := "" },
            [err "ACCESS-DENIED"])

/-- `NutServerComponent::handle_login` from `nut_server.cpp`. -/
def handle_login (cfg : ServerCfg) (c : NutClient) (args : String) :
    NutClient × List String :=
  let parts := split_args args
  if c.state = ClientState.AUTHENTICATED then
    let c1 := { c with login_attempts := c.login_attempts + 1 }
    if MAX_LOGIN_ATTEMPTS ≤ c1.login_attempts then (disconnect_client c1, [])
    else (c1, ["OK\n"])
  else if parts.length ≠ 2 then (c, [err "INVALID-ARGUMENT"])
  else if authenticate cfg (parts.getD 0 "") (parts.getD 1 "") then
    ({ c with state := .AUTHENTICATED, username := parts.getD 0 "" }, ["OK\n"])
  else
    let c1 := { c with login_attempts := c.login_attempts + 1 }
    if MAX_LOGIN_ATTEMPTS ≤ c1.login_attempts then (disconnect_client c1, [])
    else (c1, [err "ACCESS-DENIED"])

/-- `NutServerComponent::handle_logout` from `nut_server.cpp`. -/
def handle_logout (c : NutClient) : NutClient × List String :=
  (disconnect_client c, ["OK Goodbye\n"])

/-- `NutServerComponent::handle_list_ups` from `nut_server.cpp`. -/
def handle_list_ups (cfg : ServerCfg) (v : UpsView) (c : NutClient) :
    NutClient × List String :=
  let ups_name := get_ups_name cfg
  (c, ["BEGIN LIST UPS\n" ++ "UPS " ++ ups_name ++ " \"" ++
       get_ups_description v ++ "\"\n" ++ "END LIST UPS\n"])

/-- The variable list of `handle_list_var` in `nut_server.cpp`. -/
def nut_variables : List String :=
  ["ups.mfr", "ups.model", "ups.status", "ups.serial", "ups.firmware",
   "battery.charge", "battery.voltage", "battery.voltage.nominal",
   "battery.runtime", "input.voltage", "input.voltage.nominal",
   "input.frequency", "input.transfer.low", "input.transfer.high",
   "output.voltage", "output.voltage.nominal", "ups.load",
   "ups.realpower.nominal", "ups.power.nominal"]

/-- `NutServerComponent::handle_list_var` from `nut_server.cpp`. -/
def handle_list_var (cfg : ServerCfg) (v : UpsView) (c : NutClient)
    (args : String) : NutClient × List String :=
  if args ≠ get_ups_name cfg then (c, [err "UNKNOWN-UPS"])
  else if !has_ups_data v then (c, [err "DATA-STALE"])
  else
    let ups_name := get_ups_name cfg
    let body := nut_variables.foldl
      (fun acc var =>
        let value := get_ups_var v var
        if value ≠ "" then
          acc ++ "VAR " ++ ups_name ++ " " ++ var ++ " \"" ++ value ++ "\"\n"
        else acc) ""
    (c, ["BEGIN LIST VAR " ++ ups_name ++ "\n" ++ body ++
         "END LIST VAR " ++ ups_name ++ "\n"])

/-- `NutServerComponent::handle_get_var` from `nut_server.cpp`. -/
def handle_get_var (cfg : ServerCfg) (v : UpsView) (c : NutClient)
    (args : String) : NutClient × List String :=
  let parts := split_args args
  if parts.length ≠ 2 then (c, [err "INVALID-ARGUMENT"])
  else if parts.getD 0 "" ≠ get_ups_name cfg then (c, [err "UNKNOWN-UPS"])
  else
    let value := get_ups_var v (parts.getD 1 "")
    if value ≠ "" then
      (c, ["VAR " ++ get_ups_name cfg ++ " " ++ parts.getD 1 "" ++ " \"" ++
           value ++ "\"\n"])
    else (c, [err "VAR-NOT-SUPPORTED"])

/-- `NutServerComponent::get_available_commands` from `nut_server.cpp`. -/
def get_available_commands (v : UpsView) : List String :=
  if v.hid_present && v.connected then
    ["beeper.enable", "beeper.disable", "beeper.mute", "beeper.test",
     "test.battery.start.quick", "test.battery.start.deep",
     "test.battery.stop", "test.panel.start", "test.panel.stop",
     "test.ups.start", "test.ups.stop"]
  else []

/-- `NutServerComponent::handle_list_cmd` from `nut_server.cpp`. -/
def handle_list_cmd (cfg : ServerCfg) (v : UpsView) (c : NutClient)
    (args : String) : NutClient × List String :=
  if args ≠ get_ups_name cfg then (c, [err "UNKNOWN-UPS"])
  else
    let ups_name := get_ups_name cfg
    let body := (get_available_commands v).foldl
      (fun acc cmd => acc ++ "CMD " ++ ups_name ++ " " ++ cmd ++ "\n") ""
    (c, ["BEGIN LIST CMD " ++ ups_name ++ "\n" ++ body ++
         "END LIST CMD " ++ ups_name ++ "\n"])

/-- `NutServerComponent::handle_list_clients` from `nut_server.cpp`; a row
is (remote IP, seconds connected, authenticated?) for each active slot. -/
def handle_list_clients (rows : List (String × Nat × Bool)) (c : NutClient) :
    NutClient × List String :=
  let body := rows.foldl
    (fun acc row =>
      acc ++ "CLIENT " ++ row.1 ++ " " ++ toString row.2.1 ++ " " ++
        (if row.2.2 then "authenticated" else "connected") ++ "\n") ""
  (c, ["BEGIN LIST CLIENT\n" ++ body ++ "END LIST CLIENT\n"])

/-- `NutServerComponent::execute_command` from `nut_server.cpp`; the result
of each forwarded `UpsHidComponent` control method is abstracted by
`hid_ok` applied to the method name. -/
def execute_command (v : UpsView) (hid_ok : String → Bool)
    (command : String) : Bool :=
  if !v.hid_present then false
  else if command = "beeper.enable" then hid_ok "beeper_enable"
  else if command = "beeper.disable" then hid_ok "beeper_disable"
  else if command = "beeper.mute" then hid_ok "beeper_mute"
  else if command = "beeper.test" then hid_ok "beeper_test"
  else if command = "test.battery.start.quick" then
    hid_ok "start_battery_test_quick"
  else if command = "test.battery.start.deep" then
    hid_ok "start_battery_test_deep"
  else if command = "test.battery.stop" then hid_ok "stop_battery_test"
  else if command = "test.panel.start" || command = "test.ups.start" then
    hid_ok "start_ups_test"
  else if command = "test.panel.stop" || command = "test.ups.stop" then
    hid_ok "stop_ups_test"
  else false

/-- `NutServerComponent::handle_instcmd` from `nut_server.cpp`. -/
def handle_instcmd (cfg : ServerCfg) (v : UpsView) (hid_ok : String → Bool)
    (c : NutClient) (args : String) : NutClient × List String :=
  let parts := split_args args
  if parts.length ≠ 2 then (c, [err "INVALID-ARGUMENT"])
  else if parts.getD 0 "" ≠ get_ups_name cfg then (c, [err "UNKNOWN-UPS"])
  else if execute_command v hid_ok (parts.getD 1 "") then (c, ["OK\n"])
  else (c, [err "CMD-NOT-SUPPORTED"])

/-- `NutServerComponent::handle_fsd` from `nut_server.cpp`. -/
def handle_fsd (c : NutClient) (_args : String) : NutClient × List String :=
  (c, ["OK FSD-SET\n"])

/-- `NutServerComponent::handle_set_var` from `nut_server.cpp`. -/
def handle_set_var (c : NutClient) (_args : String) : NutClient × List String :=
  (c, [err "CMD-NOT-SUPPORTED"])

/-- `NutServerComponent::handle_list_rwvar` from `nut_server.cpp`. -/
def handle_list_rwvar (cfg : ServerCfg) (c : NutClient) (args : String) :
    NutClient × List String :=
  if args ≠ get_ups_name cfg then (c, [err "UNKNOWN-UPS"])
  else
    (c, ["BEGIN LIST RW " ++ get_ups_name cfg ++ "\n" ++
         "END LIST RW " ++ get_ups_name cfg ++ "\n"])

/-- `NutServerComponent::handle_list_enum` from `nut_server.cpp`. -/
def handle_list_enum (cfg : ServerCfg) (c : NutClient) (args : String) :
    NutClient × List String :=
  let parts := split_args args
  if parts.length ≠ 2 ∨ parts.getD 0 "" ≠ get_ups_name cfg then
    (c, [err "INVALID-ARGUMENT"])
  else
    (c, ["BEGIN LIST ENUM " ++ get_ups_name cfg ++ " " ++ parts.getD 1 "" ++
         "\n" ++ "END LIST ENUM " ++ get_ups_name cfg ++ " " ++
         parts.getD 1 "" ++ "\n"])

/-- `NutServerComponent::handle_list_range` from `nut_server.cpp`. -/
def handle_list_range (cfg : ServerCfg) (c : NutClient) (args : String) :
    NutClient × List String :=
  let parts := split_args args
  if parts.length ≠ 2 ∨ parts.getD 0 "" ≠ get_ups_name cfg then
    (c, [err "INVALID-ARGUMENT"])
  else
    (c, ["BEGIN LIST RANGE " ++ get_ups_name cfg ++ " " ++ parts.getD 1 "" ++
         "\n" ++ "END LIST RANGE " ++ get_ups_name cfg ++ " " ++
         parts.getD 1 "" ++ "\n"])

/-- `NutServerComponent::handle_legacy_list_vars` from `nut_server.cpp`. -/
def handle_legacy_list_vars (v : UpsView) (c : NutClient) :
    NutClient × List String :=
  if !has_ups_data v then (c, [err "DATA-STALE"])
  else
    (c, ["ups.mfr\n" ++ "ups.model\n" ++ "battery.charge\n" ++
         "input.voltage\n" ++ "output.voltage\n" ++ "ups.load\n" ++
         "battery.runtime\n" ++ "ups.status\n"])

/-- The first dispatch chain of `process_command` (the commands served
without authentication), as one definition for reuse in statements. -/
def dispatch_unauthenticated (cfg : ServerCfg) (c : NutClient)
    (cmdU args : String) : NutClient × List String :=
  if cmdU = "HELP" then handle_help c
  else if cmdU = "VER" ∨ cmdU = "VERSION" then handle_version cfg c
  else if cmdU = "NETVER" then handle_netver c
  else if cmdU = "STARTTLS" then handle_starttls c
  else if cmdU = "USERNAME" then handle_username c args
  else if cmdU = "PASSWORD" then handle_password cfg c args
  else if cmdU = "LOGIN" then handle_login cfg c args
  else if cmdU = "LOGOUT" then handle_logout c
  else if cmdU = "UPSDVER" then handle_upsdver cfg c
  else (c, [])

/-- `NutServerComponent::process_command` from `nut_server.cpp`: split the
line at the first space, uppercase the command token, serve the
always-allowed commands, then apply the authentication gate, then dispatch
the authenticated command surface. -/
def process_command (cfg : ServerCfg) (v : UpsView) (hid_ok : String → Bool)
    (rows : List (String × Nat × Bool)) (c : NutClient) (command : String) :
    NutClient × List String :=
  if command = "" then (c, [])
  else
    let cmd := (split_first command).1
    let args := (split_first command).2
    let cmdU := to_upper cmd
    if cmdU = "HELP" then handle_help c
    else if cmdU = "VER" ∨ cmdU = "VERSION" then handle_version cfg c
    else if cmdU = "NETVER" then handle_netver c
    else if cmdU = "STARTTLS" then handle_starttls c
    else if cmdU = "USERNAME" then handle_username c args
    else if cmdU = "PASSWORD" then handle_password cfg c args
    else if cmdU = "LOGIN" then handle_login cfg c args
    else if cmdU = "LOGOUT" then handle_logout c
    else if cmdU = "UPSDVER" then handle_upsdver cfg c
    else if (cfg.password_ != "") && !c.is_authenticated then
      (c, [err "ACCESS-DENIED"])
    else if cmdU = "LIST" then
      let subcmd := to_upper (split_first args).1
      let subargs := (split_first args).2
      if subcmd = "UPS" then handle_list_ups cfg v c
      else if subcmd = "VAR" then handle_list_var cfg v c subargs
      else if subcmd = "CMD" then handle_list_cmd cfg v c subargs
      else if subcmd = "CLIENTS" then handle_list_clients rows c
      else if subcmd = "RW" then handle_list_rwvar cfg c subargs
      else if subcmd = "ENUM" then handle_list_enum cfg c subargs
      else if subcmd = "RANGE" then handle_list_range cfg c subargs
      else (c, [err "INVALID-ARGUMENT"])
    else if cmdU = "GET" then
      let subcmd := to_upper (split_first args).1
      let subargs := (split_first args).2
      if subcmd = "VAR" then handle_get_var cfg v c subargs
      else (c, [err "INVALID-ARGUMENT"])
    else if cmdU = "SET" then
      let subcmd := to_upper (split_first args).1
      let subargs := (split_first args).2
      if subcmd = "VAR" then handle_set_var c subargs
      else (c, [err "INVALID-ARGUMENT"])
    else if cmdU = "INSTCMD" then handle_instcmd cfg v hid_ok c args
    else if cmdU = "FSD" then handle_fsd c args
    else if cmdU = get_ups_name cfg then handle_legacy_list_vars v c
    else (c, [err "UNKNOWN-COMMAND"])

/-- The commands the source serves before the authentication gate. -/
def unauthenticated_commands : List String :=
  ["HELP", "VER", "VERSION", "NETVER", "STARTTLS", "USERNAME", "PASSWORD",
   "LOGIN", "LOGOUT", "UPSDVER"]

/-- A `UpsView` carrying a freshly decoded set of status flags of a
connected UPS, as consumed by `get_ups_status`. -/
def view_of_flags (flags : Nat) : UpsView :=
  { hid_present := true, connected := true, status_flags := flags }

end NutServer

namespace Claims

open UpsHid NutServer

/-- C1 (counterexample): on the CyberPower decoder, status byte 0x05
(ACPresent and Discharging both set) yields a snapshot whose flags contain
both `UPS_STATUS_ONLINE` and `UPS_STATUS_ON_BATTERY`, refuting the claimed
mutual exclusion and discharging preference for that decoder. -/
theorem c1_counterexample_cp_both_flags :
    (CyberPowerProtocol.parse_present_status_report [0x0B, 0x05]
        {}).status_flags &&& UPS_STATUS_ONLINE ≠ 0 ∧
    (CyberPowerProtocol.parse_present_status_report [0x0B, 0x05]
        {}).status_flags &&& UPS_STATUS_ON_BATTERY ≠ 0 := by
  decide

/-- C1 (amended): the APC decoder never sets ONLINE and ON_BATTERY together
and prefers the discharging evidence when the AC-present and discharging
bits are both set; the CyberPower decoder instead sets ONLINE exactly when
the AC bit is set and ON_BATTERY exactly when the AC bit is clear or the
discharging bit is set, so both flags coexist whenever AC and discharging
evidence arrive together. -/
theorem c1_amended_status_flag_exclusivity :
    (∀ ch d ac bp bc si nr ov : Bool,
      (ApcHidProtocol.build_status_flags ch d ac bp bc si nr ov &&&
          UPS_STATUS_ONLINE ≠ 0 →
        ApcHidProtocol.build_status_flags ch d ac bp bc si nr ov &&&
          UPS_STATUS_ON_BATTERY = 0) ∧
      (ac = true → d = true →
        ApcHidProtocol.build_status_flags ch d ac bp bc si nr ov &&&
            UPS_STATUS_ONLINE = 0 ∧
          ApcHidProtocol.build_status_flags ch d ac bp bc si nr ov &&&
            UPS_STATUS_ON_BATTERY ≠ 0)) ∧
    (∀ ac ch d lb tl : Bool,
      (CyberPowerProtocol.build_status_flags ac ch d lb tl &&&
          UPS_STATUS_ONLINE ≠ 0 ↔ ac = true) ∧
      (CyberPowerProtocol.build_status_flags ac ch d lb tl &&&
          UPS_STATUS_ON_BATTERY ≠ 0 ↔ (ac = false ∨ d = true))) ∧
    (∀ (report : List Nat) (data : UpsData), 2 ≤ report.length →
      ¬((ApcHidProtocol.parse_present_status_report report data).status_flags
            &&& UPS_STATUS_ONLINE ≠ 0 ∧
        (ApcHidProtocol.parse_present_status_report report data).status_flags
            &&& UPS_STATUS_ON_BATTERY ≠ 0)) := by
  have hapc : ∀ ch d ac bp bc si nr ov : Bool,
      (ApcHidProtocol.build_status_flags ch d ac bp bc si nr ov &&&
          UPS_STATUS_ONLINE ≠ 0 →
        ApcHidProtocol.build_status_flags ch d ac bp bc si nr ov &&&
          UPS_STATUS_ON_BATTERY = 0) ∧
      (ac = true → d = true →
        ApcHidProtocol.build_status_flags ch d ac bp bc si nr ov &&&
            UPS_STATUS_ONLINE = 0 ∧
          ApcHidProtocol.build_status_flags ch d ac bp bc si nr ov &&&
            UPS_STATUS_ON_BATTERY ≠ 0) := by decide
  refine ⟨hapc, by decide, ?_⟩
  intro report data hlen h
  obtain ⟨h1, h2⟩ := h
  have hn : ¬ report.length < 2 := by omega
  simp only [ApcHidProtocol.parse_present_status_report, if_neg hn] at h1 h2
  exact h2 ((hapc _ _ _ _ _ _ _ _).1 h1)

/-- C1 (witness): the exclusivity instance at the concrete report
[0x16, 0x06] (discharging with AC present). -/
theorem c1_witness :
    ¬((ApcHidProtocol.parse_present_status_report [0x16, 0x06]
          {}).status_flags &&& UPS_STATUS_ONLINE ≠ 0 ∧
      (ApcHidProtocol.parse_present_status_report [0x16, 0x06]
          {}).status_flags &&& UPS_STATUS_ON_BATTERY ≠ 0) :=
  c1_amended_status_flag_exclusivity.2.2 [0x16, 0x06] {} (by decide)

/-- C2 (counterexample): APC PresentStatus payload [0x16, 0x0A] sets the
Discharging and BatteryPresent bits, not BelowCapacity, so the snapshot is
exactly ON_BATTERY (no LOW_BATTERY flag) and the NUT status string is "OB",
not "OB LB". -/
theorem c2_counterexample_0x0A_is_OB :
    (ApcHidProtocol.parse_present_status_report [0x16, 0x0A]
        {}).status_flags = UPS_STATUS_ON_BATTERY ∧
    (ApcHidProtocol.parse_present_status_report [0x16, 0x0A]
        {}).status_flags &&& UPS_STATUS_LOW_BATTERY = 0 ∧
    get_ups_status (view_of_flags
      (ApcHidProtocol.parse_present_status_report [0x16, 0x0A]
        {}).status_flags) = "OB" := by
  decide

/-- C2 (amended): payload [0x16, 0x0A] (Discharging and BatteryPresent)
yields exactly ON_BATTERY and status "OB"; a payload that sets Discharging,
BatteryPresent and BelowCapacity, such as [0x16, 0x1A], yields ON_BATTERY
with LOW_BATTERY and the status "OB LB". -/
theorem c2_amended_low_battery_needs_below_capacity :
    (ApcHidProtocol.parse_present_status_report [0x16, 0x0A]
        {}).status_flags = UPS_STATUS_ON_BATTERY ∧
    get_ups_status (view_of_flags
      (ApcHidProtocol.parse_present_status_report [0x16, 0x0A]
        {}).status_flags) = "OB" ∧
    (ApcHidProtocol.parse_present_status_report [0x16, 0x1A]
        {}).status_flags = UPS_STATUS_ON_BATTERY ||| UPS_STATUS_LOW_BATTERY ∧
    get_ups_status (view_of_flags
      (ApcHidProtocol.parse_present_status_report [0x16, 0x1A]
        {}).status_flags) = "OB LB" := by
  decide

/-- C3 (counterexample): APC PresentStatus payload [0x16, 0x05] has the
BatteryPresent bit clear, so the decoder also raises UPS_STATUS_FAULT; the
flags are not exactly ONLINE and CHARGING and the status string is
"OL CHRG ALARM". -/
theorem c3_counterexample_0x05_raises_fault :
    (ApcHidProtocol.parse_present_status_report [0x16, 0x05]
        {}).status_flags &&& UPS_STATUS_FAULT ≠ 0 ∧
    (ApcHidProtocol.parse_present_status_report [0x16, 0x05]
        {}).status_flags ≠ UPS_STATUS_ONLINE ||| UPS_STATUS_CHARGING ∧
    get_ups_status (view_of_flags
      (ApcHidProtocol.parse_present_status_report [0x16, 0x05]
        {}).status_flags) = "OL CHRG ALARM" := by
  decide

/-- C3 (amended): PowerSummary [0x0C, 0x63, 0x67, 0x02] decodes to battery
level 99 and runtime 615 minutes; PresentStatus [0x16, 0x05] decodes to
ONLINE, CHARGING and FAULT (BatteryPresent clear), status "OL CHRG ALARM";
a payload that also sets BatteryPresent, [0x16, 0x0D], yields exactly
ONLINE and CHARGING with status "OL CHRG". -/
theorem c3_amended_healthy_scenario :
    (ApcHidProtocol.parse_power_summary_report [0x0C, 0x63, 0x67, 0x02]
        {}).battery_level = some 99 ∧
    (ApcHidProtocol.parse_power_summary_report [0x0C, 0x63, 0x67, 0x02]
        {}).runtime_minutes = some 615 ∧
    (ApcHidProtocol.parse_present_status_report [0x16, 0x05]
        {}).status_flags =
      UPS_STATUS_ONLINE ||| UPS_STATUS_CHARGING ||| UPS_STATUS_FAULT ∧
    get_ups_status (view_of_flags
      (ApcHidProtocol.parse_present_status_report [0x16, 0x05]
        {}).status_flags) = "OL CHRG ALARM" ∧
    (ApcHidProtocol.parse_present_status_report [0x16, 0x0D]
        {}).status_flags = UPS_STATUS_ONLINE ||| UPS_STATUS_CHARGING ∧
    get_ups_status (view_of_flags
      (ApcHidProtocol.parse_present_status_report [0x16, 0x0D]
        {}).status_flags) = "OL CHRG" := by
  decide

/-- C4: evaluation at the failing input.  With nominal voltage 12 V (report
[0x09, 0x78]) and measured voltage 25.5 V (report [0x0A, 0xFF]), the
measured value exceeds 1.4 times the nominal, yet the read cycle stores the
unscaled 25.5 V and leaves the session scaling state untouched, while
`check_battery_voltage_scaling` — which `read_data` never calls — would
have selected the 2/3 factor with the once-per-session guard. -/
theorem c4_scaling_never_applied :
    (CyberPowerProtocol.parse_battery_voltage_nominal_report [0x09, 0x78]
        {}).battery_voltage_nominal = some 12 ∧
    (CyberPowerProtocol.read_data_battery_voltage_step {} [0x0A, 0xFF]
        (CyberPowerProtocol.parse_battery_voltage_nominal_report [0x09, 0x78]
          {})).1 = ({} : CyberPowerProtocol.CpState) ∧
    (CyberPowerProtocol.read_data_battery_voltage_step {} [0x0A, 0xFF]
        (CyberPowerProtocol.parse_battery_voltage_nominal_report [0x09, 0x78]
          {})).2.battery_voltage = some (51/2) ∧
    (12 * (14/10) : ℚ) < 51/2 ∧
    ((2:ℚ)/3) * (51/2) ≠ 51/2 ∧
    CyberPowerProtocol.check_battery_voltage_scaling {} (51/2) 12 =
      { battery_voltage_scale_ := 2/3, battery_scale_checked_ := true } := by
  refine ⟨?_, rfl, ?_, by norm_num, by norm_num, ?_⟩
  · simp [CyberPowerProtocol.parse_battery_voltage_nominal_report]
    norm_num
  · simp [CyberPowerProtocol.read_data_battery_voltage_step,
      CyberPowerProtocol.parse_battery_voltage_report,
      CyberPowerProtocol.parse_battery_voltage_nominal_report]
    norm_num
  · rw [CyberPowerProtocol.check_battery_voltage_scaling]
    simp only [if_neg (by simp : ¬ (({} : CyberPowerProtocol.CpState).battery_scale_checked_ = true))]
    rw [if_pos (by norm_num)]

/-- C5 (counterexample): the flat `UpsData::reset` of `ups_hid.h` resets
`detected_protocol` to PROTOCOL_UNKNOWN rather than leaving it unchanged. -/
theorem c5_counterexample_flat_reset_clears_protocol :
    ({ detected_protocol := UpsProtocol.PROTOCOL_APC_HID } :
        UpsData).reset.detected_protocol = UpsProtocol.PROTOCOL_UNKNOWN ∧
    UpsProtocol.PROTOCOL_UNKNOWN ≠ UpsProtocol.PROTOCOL_APC_HID := by
  decide

/-- C5 (amended): the flat `UpsData::reset` of `ups_hid.h` returns every
field — including `detected_protocol` — to its unset default; only the
composite `UpsCompositeData::reset` of `data_composite.h` (whose
`DeviceInfo::reset` is modelled from the spec) preserves
`device.detected_protocol` while the measurement components return to their
sentinels. -/
theorem c5_amended_reset_behaviour :
    (∀ d : UpsData, d.reset = ({} : UpsData)) ∧
    (∀ u : UpsCompositeData,
      u.reset.device.detected_protocol = u.device.detected_protocol ∧
      u.reset.battery = ({} : BatteryData) ∧
      u.reset.power = ({} : PowerData) ∧
      u.reset.test = ({} : TestStatus) ∧
      u.reset.config = ({} : ConfigData) ∧
      u.reset.device.manufacturer = "" ∧
      u.reset.device.model = "" ∧
      u.reset.device.serial_number = "") := by
  exact ⟨fun d => rfl, fun u => ⟨rfl, rfl, rfl, rfl, rfl, rfl, rfl, rfl⟩⟩

/-- C6 (counterexample): calls at 0, 1, 2, 3 and 5001 ms.  The fifth call
is admitted although only 4998 ms have passed since the most recent event
(at 3 ms): the suppression window is anchored at `last_error_time`, which
is only moved when a window expires, not at every event. -/
theorem c6_counterexample_window_not_sliding :
    run_rate_limiter [0, 1, 2, 3, 5001] = [true, true, true, false, true] ∧
    5001 - 3 ≤ RATE_LIMIT_MS := by
  decide

/-- C6 (amended): within a window (now within RATE_LIMIT_MS of
`last_error_time`) a call is admitted iff the incremented error count is
still within MAX_BURST, no summary is emitted, the window anchor is kept
and a suppressed call increments the suppression counter; once
RATE_LIMIT_MS has passed since the window anchor (not since the most recent
event), the next call is admitted, the summary carries the number of
suppressed messages, and the counters reset with the anchor moved to now. -/
theorem c6_amended_rate_limiter_semantics (l : ErrorRateLimit) (now : Nat) :
    (sub32 now l.last_error_time ≤ RATE_LIMIT_MS →
      ((should_log_error l now).1 = true ↔ l.error_count + 1 ≤ MAX_BURST) ∧
      (should_log_error l now).2.1 = 0 ∧
      (should_log_error l now).2.2.last_error_time = l.last_error_time ∧
      ((should_log_error l now).1 = false →
        (should_log_error l now).2.2.suppressed_count =
          l.suppressed_count + 1)) ∧
    (RATE_LIMIT_MS < sub32 now l.last_error_time →
      (should_log_error l now).1 = true ∧
      (should_log_error l now).2.1 =
        (if 0 < l.suppressed_count then l.suppressed_count else 0) ∧
      (should_log_error l now).2.2 =
        { last_error_time := now, error_count := 1,
          suppressed_count := 0 }) := by
  constructor
  · intro hw
    have hw2 : ¬ RATE_LIMIT_MS < sub32 now l.last_error_time := by omega
    have hA : ¬ (RATE_LIMIT_MS < sub32 now l.last_error_time ∧
        0 < l.suppressed_count) := fun h => hw2 h.1
    simp only [should_log_error, if_neg hA, if_neg hw2]
    by_cases h3 : l.error_count + 1 ≤ MAX_BURST
    · simp [h3]
    · simp [h3]
  · intro hw
    simp [should_log_error, hw, MAX_BURST]

/-- C6 (witness): instance of the expired-window branch at a concrete
limiter state. -/
theorem c6_witness :
    (should_log_error ⟨0, 3, 2⟩ 6000).1 = true ∧
    (should_log_error ⟨0, 3, 2⟩ 6000).2.1 = 2 := by
  have h := (c6_amended_rate_limiter_semantics ⟨0, 3, 2⟩ 6000).2 (by decide)
  exact ⟨h.1, by rw [h.2.1]; decide⟩

/-- C7: with a password configured and the client not authenticated,
exactly the commands HELP, VER, VERSION, NETVER, STARTTLS, USERNAME,
PASSWORD, LOGIN, LOGOUT and UPSDVER reach their handlers; every other
command line is answered with the single reply "ERR ACCESS-DENIED\n" and
leaves the client state unchanged. -/
theorem c7_unauthenticated_command_surface (cfg : ServerCfg) (v : UpsView)
    (hid_ok : String → Bool) (rows : List (String × Nat × Bool))
    (c : NutClient) (line : String) (hpw : cfg.password_ ≠ "")
    (hauth : c.state ≠ ClientState.AUTHENTICATED) (hne : line ≠ "") :
    (to_upper (split_first line).1 ∉ unauthenticated_commands →
      process_command cfg v hid_ok rows c line =
        (c, [err "ACCESS-DENIED"])) ∧
    (to_upper (split_first line).1 ∈ unauthenticated_commands →
      process_command cfg v hid_ok rows c line =
        dispatch_unauthenticated cfg c (to_upper (split_first line).1)
          (split_first line).2) := by
  constructor
  · intro hmem
    simp only [unauthenticated_commands, List.mem_cons,
      List.not_mem_nil, or_false] at hmem
    push_neg at hmem
    obtain ⟨h1, h2, h3, h4, h5, h6, h7, h8, h9, h10⟩ := hmem
    simp [process_command, hne, h1, h2, h3, h4, h5, h6, h7, h8, h9, h10,
      NutClient.is_authenticated, hauth, hpw]
  · intro hmem
    simp only [unauthenticated_commands, List.mem_cons,
      List.not_mem_nil, or_false] at hmem
    rcases hmem with h|h|h|h|h|h|h|h|h|h <;>
      simp [process_command, dispatch_unauthenticated, hne, h]

/-- C7 (witness): the command "LIST UPS" is denied for an unauthenticated
client while a password is configured. -/
theorem c7_witness :
    process_command ⟨"", "secret", "", "", "", ""⟩ {} (fun _ => false) []
        ⟨false, ClientState.CONNECTED, "", "", "", 0⟩ "LIST UPS" =
      (⟨false, ClientState.CONNECTED, "", "", "", 0⟩,
        [err "ACCESS-DENIED"]) :=
  (c7_unauthenticated_command_surface ⟨"", "secret", "", "", "", ""⟩ {}
    (fun _ => false) [] ⟨false, ClientState.CONNECTED, "", "", "", 0⟩
    "LIST UPS" (by decide) (by decide) (by decide)).1 (by decide)

/-- C8: when the UPS core is disconnected, LIST VAR on the configured UPS
name is answered with exactly the single line "ERR DATA-STALE\n" and no
BEGIN/VAR/END lines. -/
theorem c8_list_var_data_stale (cfg : ServerCfg) (v : UpsView)
    (c : NutClient) (args : String) (hname : args = get_ups_name cfg)
    (hconn : v.connected = false) :
    handle_list_var cfg v c args = (c, [err "DATA-STALE"]) := by
  simp [handle_list_var, has_ups_data, hname, hconn]

/-- C8 (witness): the default configuration (UPS name "ups") with a
disconnected view. -/
theorem c8_witness :
    handle_list_var {} {} {} "ups" = ({}, [err "DATA-STALE"]) :=
  c8_list_var_data_stale {} {} {} "ups" (by decide) (by decide)

/-- C9 (counterexample): a PowerSummary report with raw runtime 0 leaves
`runtime_minutes` at the unset sentinel rather than storing 0, and the NUT
server omits `battery.runtime` (returns the empty value) when the cached
runtime is 0, refuting "runtime 0 is stored and published as 0". -/
theorem c9_counterexample_runtime_zero_dropped :
    (ApcHidProtocol.parse_power_summary_report [0x0C, 0x63, 0x00, 0x00]
        {}).runtime_minutes = none ∧
    get_ups_var { connected := true, runtime_minutes := some 0 }
        "battery.runtime" = "" := by
  constructor
  · simp [ApcHidProtocol.parse_power_summary_report]
  · simp [get_ups_var, has_ups_data, get_ups_manufacturer, get_ups_model]

/-- C9 (amended): a decoded runtime of 0 is treated as unset: the APC
decoder stores the runtime only when `0 < raw < 65535`, so a raw value of 0
leaves the previous sentinel; and the NUT server emits `battery.runtime`
only when the cached runtime is strictly positive, so a cached runtime of 0
produces the empty value (the variable is omitted from LIST VAR and GET VAR
answers ERR VAR-NOT-SUPPORTED). -/
theorem c9_amended_runtime_zero_is_unset (b : Nat) (d : UpsData)
    (v : UpsView) (hrt : v.runtime_minutes = some 0) :
    (ApcHidProtocol.parse_power_summary_report [0x0C, b, 0, 0]
        d).runtime_minutes = d.runtime_minutes ∧
    get_ups_var v "battery.runtime" = "" := by
  constructor
  · simp [ApcHidProtocol.parse_power_summary_report]
  · by_cases hv : has_ups_data v = true
    · simp [get_ups_var, hv, hrt]
    · simp [get_ups_var, hv]

/-- C9 (witness): the amended statement at a concrete report byte and a
concrete connected view with runtime 0. -/
theorem c9_witness :
    (ApcHidProtocol.parse_power_summary_report [0x0C, 0x63, 0, 0]
        {}).runtime_minutes = ({} : UpsData).runtime_minutes ∧
    get_ups_var { connected := true, runtime_minutes := some 0 }
        "battery.runtime" = "" :=
  c9_amended_runtime_zero_is_unset 0x63 {}
    { connected := true, runtime_minutes := some 0 } (by decide)

/-- C10: with no password configured, `authenticate` accepts every
credential pair; a LOGIN with any two tokens authenticates the client, and
a USERNAME/PASSWORD sequence with any credentials ends in the
AUTHENTICATED state. -/
theorem c10_no_password_open_access (cfg : ServerCfg) (c : NutClient)
    (args u p : String) (hpw : cfg.password_ = "")
    (hst : c.state ≠ ClientState.AUTHENTICATED)
    (hargs : split_args args = [u, p]) :
    authenticate cfg u p = true ∧
    handle_login cfg c args =
      ({ c with state := ClientState.AUTHENTICATED, username := u },
        ["OK\n"]) ∧
    (∀ pw : String, pw ≠ "" →
      (handle_password cfg (handle_username c u).1 pw).1.state =
        ClientState.AUTHENTICATED) := by
  refine ⟨by simp [authenticate, hpw], ?_, ?_⟩
  · simp [handle_login, hargs, hst, authenticate, hpw]
  · intro pw hpwne
    by_cases hu : u = ""
    · simp [handle_username, handle_password, authenticate, hpw, hpwne, hu]
    · simp [handle_username, handle_password, authenticate, hpw, hpwne, hu]

/-- C10 (witness): arbitrary credentials "admin secret" authenticate when
no password is configured. -/
theorem c10_witness :
    handle_login {} ⟨false, ClientState.CONNECTED, "", "", "", 0⟩
        "admin secret" =
      (⟨false, ClientState.AUTHENTICATED, "admin", "", "", 0⟩, ["OK\n"]) :=
  (c10_no_password_open_access {}
    ⟨false, ClientState.CONNECTED, "", "", "", 0⟩ "admin secret" "admin"
    "secret" (by decide) (by decide) (by decide)).2.1

end Claims

